import Mathlib

/-!
Shallow embedding of `src/build.py` from the `github-codebuild-logs`
repository: the `Build` class, which wraps a CodeBuild build-state-change
event, lazily fetches and caches build details, resolves batch-build
semantics, and copies CloudWatch logs to S3.

Python dicts with optional keys are embedded as structures with `Option`
fields (`none` = key absent).  Python exceptions (`KeyError` from `d[k]`,
`IndexError` from `l[0]` / `l[1]` on a too-short list, and any other
exception raised by a boto3 client call) are embedded as an explicit
`PyErr` value.  The external AWS services are oracles passed in as
parameters: a `CallResult` is either the response the service returned or
the exception the call raised.
-/

namespace CodebuildLogs

/-- Python exceptions distinguished by the code: `except KeyError` catches
only `keyError`. `clientError` stands for any other exception raised by a
boto3 call (e.g. `botocore` `ClientError`). -/
inductive PyErr where
  | keyError
  | indexError
  | clientError
deriving DecidableEq, Repr

/-- Outcome of one external service call: the call either raises an
exception or returns a response value. -/
inductive CallResult (α : Type) where
  | raises (e : PyErr)
  | returns (v : α)
deriving DecidableEq, Repr

/-- The `logs` sub-dict of build details: `{'groupName': ..., 'streamName': ...}`,
either key possibly absent. -/
structure LogsInfo where
  groupName : Option String
  streamName : Option String
deriving DecidableEq, Repr

/-- One element of `batch_get_builds(...)['builds']`: the build-details dict.
Only the keys the code reads are modelled; each is optional because Python
would raise `KeyError` (or `.get` would default) when absent. -/
structure BuildDetails where
  arn : Option String
  sourceVersion : Option String
  resolvedSourceVersion : Option String
  buildBatchArn : Option String
  logs : Option LogsInfo
deriving DecidableEq, Repr

/-- The `currentBuildSummary` sub-dict of a batch group. -/
structure CurrentBuildSummary where
  arn : Option String
  buildStatus : Option String
deriving DecidableEq, Repr

/-- One element of `batch['buildGroups']`. -/
structure BuildGroup where
  identifier : Option String
  currentBuildSummary : Option CurrentBuildSummary
deriving DecidableEq, Repr

/-- One element of `batch_get_build_batches(...)['buildBatches']`. -/
structure BuildBatch where
  sourceVersion : Option String
  buildGroups : Option (List BuildGroup)
deriving DecidableEq, Repr

/-- The fields of the incoming event read by `Build.__init__`:
`event['detail']['build-id']`, `['project-name']`, `['build-status']`. -/
structure BuildEvent where
  build_id : String
  project_name : String
  build_status : String
deriving DecidableEq, Repr

/-- The mutable state of a `Build` instance: the fields set in `__init__`
plus the memo attribute `_build_details` (`none` = `hasattr` is false,
i.e. not yet fetched). -/
structure Build where
  id : String
  project_name : String
  status : String
  group_identifier : Option String
  build_details : Option BuildDetails
deriving DecidableEq, Repr

/-- `Build.__init__(build_event)`. -/
def Build.from_event (e : BuildEvent) : Build :=
  { id := e.build_id
    project_name := e.project_name
    status := e.build_status
    group_identifier := none
    build_details := none }

/-- The oracle answers of the two CodeBuild API calls the code makes for a
given build: the response dicts of `batch_get_builds(ids=[self.id])` and
`batch_get_build_batches(ids=[...])`.  The outer `Option` is presence of
the `builds` / `buildBatches` key in the response dict. -/
structure Services where
  builds_response : CallResult (Option (List BuildDetails))
  batches_response : CallResult (Option (List BuildBatch))
deriving DecidableEq, Repr

/-- Evaluation of `CODEBUILD.batch_get_builds(ids=[self.id])['builds'][0]`
(line 74-75), outside any handler: a raised exception propagates, a missing
`builds` key is a `KeyError`, an empty list an `IndexError`. -/
def extractFirstBuild (r : CallResult (Option (List BuildDetails))) :
    Except PyErr BuildDetails :=
  match r with
  | .raises e => .error e
  | .returns none => .error .keyError
  | .returns (some []) => .error .indexError
  | .returns (some (b :: _)) => .ok b

/-- Evaluation of the `try` block of `_process_batch` (lines 85-90):
`batch = CODEBUILD.batch_get_build_batches(ids=[...])['buildBatches'][0]`
with `except KeyError: return`.  Only a `KeyError` is caught (result
`.ok none` = the early `return`); an `IndexError` from indexing an empty
`buildBatches` list, or any non-`KeyError` exception raised by the call,
propagates. -/
def extractFirstBatch (r : CallResult (Option (List BuildBatch))) :
    Except PyErr (Option BuildBatch) :=
  match r with
  | .raises .keyError => .ok none
  | .raises e => .error e
  | .returns none => .ok none
  | .returns (some []) => .error .indexError
  | .returns (some (b :: _)) => .ok (some b)

/-- The predicate `iterator_callback(group)` of `_process_batch`
(lines 105-112), for the case where `self._build_details['arn']` is
present and equals `selfArn`. -/
def iterator_callback (selfArn : String) (g : BuildGroup) : Bool :=
  match g.currentBuildSummary with
  | none => false
  | some cbs =>
    match cbs.arn with
    | none => false
    | some a => a == selfArn

/-- `next(filter(iterator_callback, batch['buildGroups']), False)`
(lines 114-115): the first group whose `currentBuildSummary.arn` equals
`self._build_details['arn']`.  Reading `self._build_details['arn']` raises
an uncaught `KeyError` when the key is absent, but only if some group
actually reaches that comparison (the filter is lazy). -/
def find_group (selfArn : Option String) :
    List BuildGroup → Except PyErr (Option BuildGroup)
  | [] => .ok none
  | g :: rest =>
    match g.currentBuildSummary with
    | none => find_group selfArn rest
    | some cbs =>
      match cbs.arn with
      | none => find_group selfArn rest
      | some a =>
        match selfArn with
        | none => .error .keyError
        | some sa => if a == sa then .ok (some g) else find_group selfArn rest

/-- Python's `str.split(sep)` for a one-character separator, over the
character list of the string: `'a/b'.split('/') == ['a', 'b']` and
`''.split('/') == ['']`.  Used for `buildBatchArn.split('/')` on line 87,
where indexing `[1]` raises an `IndexError` when the result has fewer
than two elements. -/
def pySplit (sep : Char) : List Char → List (List Char)
  | [] => [[]]
  | c :: cs =>
    match pySplit sep cs with
    | [] => [[]]
    | h :: t => if c == sep then [] :: h :: t else (c :: h) :: t

/-- The state `_process_batch` reads and mutates: `self._build_details`
(already assigned on line 75), `self.status`, `self.group_identifier`. -/
structure BatchState where
  build_details : BuildDetails
  status : String
  group_identifier : Option String
deriving DecidableEq, Repr

/-- `Build._process_batch` (lines 80-131), as a function from the oracle
answer of `batch_get_build_batches` and the pre-state to the post-state
(reflecting all mutations performed before any uncaught exception) paired
with the uncaught exception, if one escaped. -/
def process_batch (call : CallResult (Option (List BuildBatch)))
    (s : BatchState) : BatchState × Option PyErr :=
  match s.build_details.buildBatchArn with
  | none => (s, none)
  | some arn =>
    if (pySplit '/' arn.data).length < 2 then
      (s, some .indexError)
    else
      match extractFirstBatch call with
      | .error e => (s, some e)
      | .ok none => (s, none)
      | .ok (some batch) =>
        match batch.sourceVersion with
        | none => (s, none)
        | some sv =>
          let s1 : BatchState :=
            { s with build_details := { s.build_details with sourceVersion := some sv } }
          match batch.buildGroups with
          | none => (s1, none)
          | some groups =>
            match find_group s1.build_details.arn groups with
            | .error e => (s1, some e)
            | .ok none => (s1, none)
            | .ok (some g) =>
              match g.identifier with
              | none => (s1, none)
              | some ident =>
                let s2 : BatchState := { s1 with group_identifier := some ident }
                match g.currentBuildSummary with
                | none => (s2, some .keyError)
                | some cbs =>
                  match cbs.buildStatus with
                  | none => (s2, some .keyError)
                  | some bs => ({ s2 with status := bs }, none)

deriving instance DecidableEq for Except

/-- The outcome of one invocation of `Build._get_build_details`: the
post-state of the instance, the number of `batch_get_builds` calls made
during this invocation, and the returned details or the uncaught
exception. -/
structure FetchResult where
  build : Build
  calls : Nat
  result : Except PyErr BuildDetails
deriving DecidableEq, Repr

/-- `Build._get_build_details` (lines 72-78): if `_build_details` is cached,
return it without a service call; otherwise call `batch_get_builds`, store
the first result, run `_process_batch`, and return the (possibly mutated)
details.  Note that `_build_details` is assigned before `_process_batch`
runs, so it stays cached even when `_process_batch` raises. -/
def Build.get_build_details (svc : Services) (b : Build) : FetchResult :=
  match b.build_details with
  | some bd => ⟨b, 0, .ok bd⟩
  | none =>
    match extractFirstBuild svc.builds_response with
    | .error e => ⟨b, 1, .error e⟩
    | .ok bd0 =>
      let p := process_batch svc.batches_response ⟨bd0, b.status, b.group_identifier⟩
      let b1 : Build :=
        { b with
          build_details := some p.1.build_details
          status := p.1.status
          group_identifier := p.1.group_identifier }
      match p.2 with
      | some e => ⟨b1, 1, .error e⟩
      | none => ⟨b1, 1, .ok p.1.build_details⟩

/-- Value of the base-10 numeral formed by a list of digit characters, as
Python's `int()` reads the captured group. -/
def digitsToNat (ds : List Char) : Nat :=
  ds.foldl (fun n c => 10 * n + (c.toNat - Char.toNat '0')) 0

/-- `re.match(r'^pr\/(\d+)', s)` followed by `int(matches.group(1))`
(lines 31-34), over the character list of `s`: the string must start with
`pr/` followed by at least one digit; the captured group is the maximal
run of digits after `pr/`. -/
def matchPrId : List Char → Option Nat
  | c1 :: c2 :: c3 :: rest =>
    if c1 == 'p' && c2 == 'r' && c3 == '/' then
      let ds := rest.takeWhile Char.isDigit
      if ds.isEmpty then none else some (digitsToNat ds)
    else none
  | _ => none

/-- `Build.get_pr_id` (lines 29-34) applied to already-resolved build
details: `self._get_build_details().get('sourceVersion', "")` defaults a
missing key to the empty string. -/
def BuildDetails.pr_id (bd : BuildDetails) : Option Nat :=
  matchPrId (bd.sourceVersion.getD "").data

/-- `Build.is_pr_build` (lines 41-43) applied to already-resolved build
details: `self.get_pr_id() is not None`. -/
def BuildDetails.is_pr_build (bd : BuildDetails) : Bool :=
  bd.pr_id.isSome

/-- `Build.get_pr_id` through the full pipeline: `_get_build_details`
(which may fetch, run batch resolution, and raise) then the regex match. -/
def Build.get_pr_id (svc : Services) (b : Build) :
    Build × Except PyErr (Option Nat) :=
  let fr := b.get_build_details svc
  match fr.result with
  | .error e => (fr.build, .error e)
  | .ok bd => (fr.build, .ok bd.pr_id)

/-- `Build.is_pr_build` through the full pipeline. -/
def Build.is_pr_build (svc : Services) (b : Build) :
    Build × Except PyErr Bool :=
  match b.get_pr_id svc with
  | (b1, .error e) => (b1, .error e)
  | (b1, .ok r) => (b1, .ok r.isSome)

/-- `Build.commit_id` (lines 36-39):
`self._get_build_details()["resolvedSourceVersion"]`; indexing with a
missing key raises an uncaught `KeyError`. -/
def Build.commit_id (svc : Services) (b : Build) :
    Build × Except PyErr String :=
  let fr := b.get_build_details svc
  match fr.result with
  | .error e => (fr.build, .error e)
  | .ok bd =>
    match bd.resolvedSourceVersion with
    | none => (fr.build, .error .keyError)
    | some v => (fr.build, .ok v)

/-- UTF-8 encoding of a Unicode code point, as `urllib.parse.quote` encodes
non-safe characters byte by byte. -/
def utf8Bytes (n : Nat) : List Nat :=
  if n < 0x80 then [n]
  else if n < 0x800 then
    [0xC0 + n / 0x40, 0x80 + n % 0x40]
  else if n < 0x10000 then
    [0xE0 + n / 0x1000, 0x80 + (n / 0x40) % 0x40, 0x80 + n % 0x40]
  else
    [0xF0 + n / 0x40000, 0x80 + (n / 0x1000) % 0x40,
     0x80 + (n / 0x40) % 0x40, 0x80 + n % 0x40]

/-- Uppercase hexadecimal digit character for `n < 16`. -/
def hexDigitUpper (n : Nat) : Char :=
  if n < 10 then Char.ofNat (Char.toNat '0' + n)
  else Char.ofNat (Char.toNat 'A' + (n - 10))

/-- `%XX` percent-escape of one byte, uppercase hex as `urllib.parse.quote`
produces. -/
def percentEscape (b : Nat) : List Char :=
  ['%', hexDigitUpper (b / 16), hexDigitUpper (b % 16)]

/-- The characters `urllib.parse.quote_plus` leaves unescaped with the
default `safe=''`: ASCII letters, digits, and `_.-~`. -/
def isAlwaysSafe (c : Char) : Bool :=
  (('a' ≤ c && c ≤ 'z') || ('A' ≤ c && c ≤ 'Z') || ('0' ≤ c && c ≤ '9')
    || c == '_' || c == '.' || c == '-' || c == '~')

/-- Encoding of one character under `urllib.parse.quote_plus`: safe
characters pass through, a space becomes `+`, everything else is
percent-escaped byte by byte of its UTF-8 encoding. -/
def quotePlusChar (c : Char) : List Char :=
  if isAlwaysSafe c then [c]
  else if c == ' ' then ['+']
  else ((utf8Bytes c.toNat).map percentEscape).flatten

/-- `urllib.parse.quote_plus` with default arguments, as used on line 66. -/
def quote_plus (s : String) : String :=
  String.mk ((s.data.map quotePlusChar).flatten)

/-- `Build._get_logs_key` (lines 68-70) applied to already-resolved build
details: `self._get_build_details()['logs']['streamName']` (a `KeyError`
propagates when either key is absent) then `'{}/build.log'.format(...)`. -/
def get_logs_key (bd : BuildDetails) : Except PyErr String :=
  match bd.logs with
  | none => .error .keyError
  | some li =>
    match li.streamName with
    | none => .error .keyError
    | some stream => .ok (stream ++ "/build.log")

/-- `Build.get_logs_url` (lines 64-66) applied to already-resolved build
details, with the configured `BUILD_LOGS_API_ENDPOINT` as a parameter:
`'{}?key={}'.format(endpoint, quote_plus(self._get_logs_key()))`. -/
def get_logs_url (endpoint : String) (bd : BuildDetails) :
    Except PyErr String :=
  match get_logs_key bd with
  | .error e => .error e
  | .ok k => .ok (endpoint ++ "?key=" ++ quote_plus k)

/-- One CloudWatch log event, as consumed by `copy_logs`: only the
`message` field is read. -/
structure LogEvent where
  message : String
deriving DecidableEq, Repr

/-- One page of the `filter_log_events` paginator: its `events` list. -/
structure LogPage where
  events : List LogEvent
deriving DecidableEq, Repr

/-- The arguments of the `BUCKET.put_object` call (lines 58-62). -/
structure PutObjectCall where
  Key : String
  Body : String
  ContentType : String
deriving DecidableEq, Repr

/-- `Build.copy_logs` (lines 45-62) applied to already-resolved build
details, with the paginator's pages as an oracle parameter: reads
`logs.groupName` and `logs.streamName` (uncaught `KeyError` when absent),
concatenates every event message in page order then in-page order with no
separator (`''.join(...)` over the flattened comprehension), and returns
the `put_object` call it performs. -/
def copy_logs (bd : BuildDetails) (pages : List LogPage) :
    Except PyErr PutObjectCall :=
  match bd.logs with
  | none => .error .keyError
  | some li =>
    match li.groupName with
    | none => .error .keyError
    | some _ =>
      match li.streamName with
      | none => .error .keyError
      | some stream =>
        let logs_content :=
          String.join (((pages.map LogPage.events).flatten).map LogEvent.message)
        .ok { Key := stream ++ "/build.log"
              Body := logs_content
              ContentType := "text/plain" }

/-- Concatenation of the log messages as the spec words it: "in page order
then in-page order, with no separator" — join the messages within each
page, then join the per-page strings. -/
def concatMessagesSpec (pages : List LogPage) : String :=
  String.join (pages.map (fun p => String.join (p.events.map LogEvent.message)))

/-! Shared helper lemmas. -/

theorem string_join_append (a b : List String) :
    String.join (a ++ b) = String.join a ++ String.join b := by
  apply String.ext
  simp [String.join_eq, String.data_append]

theorem string_join_cons (s : String) (l : List String) :
    String.join (s :: l) = s ++ String.join l := by
  apply String.ext
  simp [String.join_eq, String.data_append]

theorem join_flatten_messages (pages : List LogPage) :
    String.join (((pages.map LogPage.events).flatten).map LogEvent.message)
      = concatMessagesSpec pages := by
  induction pages with
  | nil => rfl
  | cons p ps ih =>
    rw [List.map_cons, List.flatten_cons, List.map_append, string_join_append, ih]
    simp [concatMessagesSpec, List.map_cons, string_join_cons]

theorem head_dropWhile_false (p : Char → Bool) (l : List Char) :
    ∀ c : Char, ((l.dropWhile p).head? = some c) → p c = false := by
  induction l with
  | nil => intro c h; simp [List.dropWhile] at h
  | cons a l ih =>
    intro c h
    rw [List.dropWhile_cons] at h
    by_cases hpa : p a
    · rw [if_pos hpa] at h
      exact ih c h
    · rw [if_neg hpa] at h
      simp only [List.head?_cons, Option.some.injEq] at h
      subst h
      exact Bool.not_eq_true _ ▸ hpa

theorem takeWhile_all_append (p : Char → Bool) (ds rest : List Char)
    (hds : ∀ c ∈ ds, p c = true)
    (hrest : ∀ c : Char, rest.head? = some c → p c = false) :
    (ds ++ rest).takeWhile p = ds := by
  induction ds with
  | nil =>
    simp only [List.nil_append]
    cases rest with
    | nil => rfl
    | cons r rs =>
      have hr : p r = false := hrest r rfl
      simp [List.takeWhile_cons, hr]
  | cons d ds ih =>
    have hd : p d = true := hds d (by simp)
    simp only [List.cons_append, List.takeWhile_cons, hd, if_true]
    rw [ih (fun c hc => hds c (by simp [hc]))]

theorem matchPrId_eq_some_iff (cs : List Char) (n : Nat) :
    matchPrId cs = some n ↔
      ∃ ds rest : List Char,
        cs = 'p' :: 'r' :: '/' :: (ds ++ rest) ∧
        ds ≠ [] ∧ (∀ c ∈ ds, c.isDigit = true) ∧
        (∀ c : Char, rest.head? = some c → c.isDigit = false) ∧
        n = digitsToNat ds := by
  constructor
  · intro h
    rcases cs with _ | ⟨c1, _ | ⟨c2, _ | ⟨c3, rest⟩⟩⟩
    · simp [matchPrId] at h
    · simp [matchPrId] at h
    · simp [matchPrId] at h
    · by_cases hb : (c1 == 'p' && c2 == 'r' && c3 == '/') = true
      · have hc : c1 = 'p' ∧ c2 = 'r' ∧ c3 = '/' := by
          simpa [Bool.and_eq_true, beq_iff_eq, and_assoc] using hb
        obtain ⟨h1, h2, h3⟩ := hc
        subst h1; subst h2; subst h3
        simp only [matchPrId, beq_self_eq_true, Bool.and_self, if_true] at h
        rcases hds : rest.takeWhile Char.isDigit with _ | ⟨a, as⟩
        · rw [hds] at h; simp at h
        · rw [hds] at h
          simp only [List.isEmpty_cons, Bool.false_eq_true, if_false,
            Option.some.injEq] at h
          refine ⟨a :: as, rest.dropWhile Char.isDigit, ?_, ?_, ?_, ?_, ?_⟩
          · rw [← hds, List.takeWhile_append_dropWhile]
          · simp
          · intro c hc
            exact List.mem_takeWhile_imp (hds ▸ hc)
          · intro c hc
            exact head_dropWhile_false Char.isDigit rest c hc
          · exact h.symm
      · simp [matchPrId, Bool.not_eq_true _ ▸ hb] at h
  · rintro ⟨ds, rest, hcs, hne, hds, hrest, hn⟩
    subst hcs; subst hn
    have ht : ((ds ++ rest).takeWhile Char.isDigit) = ds :=
      takeWhile_all_append Char.isDigit ds rest hds hrest
    simp only [matchPrId, beq_self_eq_true, Bool.and_self, if_true, ht]
    rcases ds with _ | ⟨d, ds⟩
    · exact absurd rfl hne
    · simp

theorem find_group_first (selfArn : String) (pre post : List BuildGroup)
    (g : BuildGroup)
    (hpre : ∀ g' ∈ pre, iterator_callback selfArn g' = false)
    (hmatch : iterator_callback selfArn g = true) :
    find_group (some selfArn) (pre ++ g :: post) = .ok (some g) := by
  induction pre with
  | nil =>
    rw [List.nil_append]
    rcases hc : g.currentBuildSummary with _ | cbs
    · simp only [iterator_callback, hc] at hmatch
      exact Bool.noConfusion hmatch
    · rcases ha : cbs.arn with _ | a
      · simp only [iterator_callback, hc, ha] at hmatch
        exact Bool.noConfusion hmatch
      · simp only [iterator_callback, hc, ha] at hmatch
        simp only [find_group, hc, ha, hmatch, if_true]
  | cons q qs ih =>
    have hq : iterator_callback selfArn q = false := hpre q (by simp)
    have hrec : find_group (some selfArn) (qs ++ g :: post) = .ok (some g) :=
      ih (fun g' hg' => hpre g' (by simp [hg']))
    rw [List.cons_append]
    rcases hc : q.currentBuildSummary with _ | cbs
    · simp only [find_group, hc, hrec]
    · rcases ha : cbs.arn with _ | a
      · simp only [find_group, hc, ha, hrec]
      · simp only [iterator_callback, hc, ha] at hq
        simp only [find_group, hc, ha, hq, Bool.false_eq_true, if_false, hrec]

/-! Claim theorems. -/

/-- C4: for every build whose details carry a log stream name,
`get_logs_url` returns the configured log-retrieval endpoint followed by
`?key=` and the `quote_plus`-encoding of the storage key
`<streamName>/build.log` — exactly the key that `copy_logs` writes — and
for stream name `my stream/1` the encoded query value is
`my+stream%2F1%2Fbuild.log`, with spaces and slashes encoded. -/
theorem c4_get_logs_url (endpoint stream : String) (bd : BuildDetails)
    (li : LogsInfo) (pages : List LogPage) (pc : PutObjectCall)
    (hlogs : bd.logs = some li) (hstream : li.streamName = some stream)
    (hput : copy_logs bd pages = .ok pc) :
    get_logs_url endpoint bd =
      .ok (endpoint ++ "?key=" ++ quote_plus (stream ++ "/build.log")) ∧
    pc.Key = stream ++ "/build.log" ∧
    quote_plus "my stream/1/build.log" = "my+stream%2F1%2Fbuild.log" := by
  refine ⟨?_, ?_, ?_⟩
  · simp [get_logs_url, get_logs_key, hlogs, hstream]
  · rcases hg : li.groupName with _ | gn
    · simp [copy_logs, hlogs, hg] at hput
    · simp only [copy_logs, hlogs, hg, hstream, Except.ok.injEq] at hput
      rw [← hput]
  · rfl

/-- C4 witness: concrete build details with stream name `my stream/1`. -/
theorem c4_get_logs_url_witness :
    get_logs_url "https://ep.example"
        ⟨some "arn:b", some "abc", none, none,
          some ⟨some "grp", some "my stream/1"⟩⟩ =
      .ok ("https://ep.example" ++ "?key=" ++
        quote_plus ("my stream/1" ++ "/build.log")) ∧
    ({ Key := "my stream/1/build.log", Body := "", ContentType := "text/plain" } :
        PutObjectCall).Key = "my stream/1" ++ "/build.log" ∧
    quote_plus "my stream/1/build.log" = "my+stream%2F1%2Fbuild.log" :=
  c4_get_logs_url "https://ep.example" "my stream/1"
    ⟨some "arn:b", some "abc", none, none, some ⟨some "grp", some "my stream/1"⟩⟩
    ⟨some "grp", some "my stream/1"⟩ []
    { Key := "my stream/1/build.log", Body := "", ContentType := "text/plain" }
    rfl rfl (by rfl)

/-- C5: for every build whose details carry a log group and stream name,
`copy_logs` writes to key `<streamName>/build.log`, with content type
`text/plain`, the concatenation of every retrieved event message in page
order then in-page order with no separator. -/
theorem c5_copy_logs (bd : BuildDetails) (li : LogsInfo) (gn stream : String)
    (pages : List LogPage)
    (hlogs : bd.logs = some li) (hgroup : li.groupName = some gn)
    (hstream : li.streamName = some stream) :
    copy_logs bd pages =
      .ok { Key := stream ++ "/build.log"
            Body := concatMessagesSpec pages
            ContentType := "text/plain" } := by
  simp only [copy_logs, hlogs, hgroup, hstream, join_flatten_messages]

/-- C5 witness: the two pages `["A: ", "B\n"]` and `["C: ", "D\n"]` produce
the blob `A: B\nC: D\n` at key `stream-7/build.log`. -/
theorem c5_copy_logs_witness :
    copy_logs
        ⟨some "arn:b", some "abc", none, none,
          some ⟨some "grp", some "stream-7"⟩⟩
        [⟨[⟨"A: "⟩, ⟨"B\n"⟩]⟩, ⟨[⟨"C: "⟩, ⟨"D\n"⟩]⟩] =
      .ok { Key := "stream-7/build.log"
            Body := "A: B\nC: D\n"
            ContentType := "text/plain" } := by
  rw [c5_copy_logs
    ⟨some "arn:b", some "abc", none, none, some ⟨some "grp", some "stream-7"⟩⟩
    ⟨some "grp", some "stream-7"⟩ "grp" "stream-7"
    [⟨[⟨"A: "⟩, ⟨"B\n"⟩]⟩, ⟨[⟨"C: "⟩, ⟨"D\n"⟩]⟩] rfl rfl rfl]
  rfl

/-- C8: `commit_id` returns the `resolvedSourceVersion` field of the
fetched build details verbatim, and the `KeyError` propagates to the
caller when the field is absent. -/
theorem c8_commit_id (svc : Services) (b : Build) (bd : BuildDetails)
    (hfetch : (b.get_build_details svc).result = .ok bd) :
    (∀ v, bd.resolvedSourceVersion = some v → (b.commit_id svc).2 = .ok v) ∧
    (bd.resolvedSourceVersion = none →
      (b.commit_id svc).2 = .error PyErr.keyError) := by
  constructor
  · intro v hv
    simp only [Build.commit_id, hfetch, hv]
  · intro hv
    simp only [Build.commit_id, hfetch, hv]

/-- C8 witness: a fresh build fetched from a service whose single build
record resolves to commit `deadbeef`. -/
theorem c8_commit_id_witness :
    ((Build.from_event ⟨"id1", "proj", "SUCCEEDED"⟩).commit_id
        ⟨.returns (some [⟨some "arn:b", some "abc", some "deadbeef", none, none⟩]),
          .returns none⟩).2 = .ok "deadbeef" :=
  (c8_commit_id
      ⟨.returns (some [⟨some "arn:b", some "abc", some "deadbeef", none, none⟩]),
        .returns none⟩
      (Build.from_event ⟨"id1", "proj", "SUCCEEDED"⟩)
      ⟨some "arn:b", some "abc", some "deadbeef", none, none⟩
      (by rfl)).1 "deadbeef" rfl

/-- C10: for every build whose fetched details contain no `sourceVersion`
key at all, `get_pr_id` returns `none` and `is_pr_build` returns `false`
instead of raising: the missing key defaults to the empty string before
the pattern match. -/
theorem c10_missing_source_version (svc : Services) (b : Build)
    (bd : BuildDetails)
    (hfetch : (b.get_build_details svc).result = .ok bd)
    (hsv : bd.sourceVersion = none) :
    (b.get_pr_id svc).2 = .ok none ∧ (b.is_pr_build svc).2 = .ok false := by
  have hpr : bd.pr_id = none := by
    simp only [BuildDetails.pr_id, hsv]
    rfl
  constructor
  · simp only [Build.get_pr_id, hfetch, hpr]
  · simp only [Build.is_pr_build, Build.get_pr_id, hfetch, hpr, Option.isSome_none]

/-- C10 witness: a build record with no `sourceVersion` key. -/
theorem c10_missing_source_version_witness :
    ((Build.from_event ⟨"id1", "proj", "SUCCEEDED"⟩).get_pr_id
        ⟨.returns (some [⟨some "arn:b", none, some "deadbeef", none, none⟩]),
          .returns none⟩).2 = .ok none ∧
    ((Build.from_event ⟨"id1", "proj", "SUCCEEDED"⟩).is_pr_build
        ⟨.returns (some [⟨some "arn:b", none, some "deadbeef", none, none⟩]),
          .returns none⟩).2 = .ok false :=
  c10_missing_source_version
    ⟨.returns (some [⟨some "arn:b", none, some "deadbeef", none, none⟩]),
      .returns none⟩
    (Build.from_event ⟨"id1", "proj", "SUCCEEDED"⟩)
    ⟨some "arn:b", none, some "deadbeef", none, none⟩
    (by rfl) rfl

/-- C3: for every batch build (details carry a `buildBatchArn` whose split
on `/` has a second segment) whose batch details contain a
`sourceVersion`, batch resolution overwrites the cached details'
`sourceVersion` with the batch's value; consequently, when the batch-level
`sourceVersion` is `pr/7`, `is_pr_build` on the resolved details is true
regardless of the per-item `sourceVersion`. -/
theorem c3_batch_source_version (call : CallResult (Option (List BuildBatch)))
    (s : BatchState) (arn sv : String) (batch : BuildBatch)
    (harn : s.build_details.buildBatchArn = some arn)
    (hsplit : 2 ≤ (pySplit '/' arn.data).length)
    (hcall : extractFirstBatch call = .ok (some batch))
    (hsv : batch.sourceVersion = some sv) :
    (process_batch call s).1.build_details.sourceVersion = some sv ∧
    (sv = "pr/7" →
      BuildDetails.is_pr_build (process_batch call s).1.build_details = true) := by
  have h2 : ¬ (pySplit '/' arn.data).length < 2 := by omega
  have hmain : (process_batch call s).1.build_details.sourceVersion = some sv := by
    simp only [process_batch, harn, if_neg h2, hcall, hsv]
    repeat' split
    all_goals rfl
  refine ⟨hmain, fun h => ?_⟩
  subst h
  simp only [BuildDetails.is_pr_build, BuildDetails.pr_id, hmain]
  rfl

/-- C3 witness: a batch item whose own `sourceVersion` is a commit hash
while the batch-level `sourceVersion` is `pr/7`. -/
theorem c3_batch_source_version_witness :
    (process_batch
        (.returns (some [⟨some "pr/7", none⟩]))
        ⟨⟨some "arn:item", some "a1b2c3d4", none,
            some "arn:aws:codebuild:eu-west-1:1:build-batch/proj:0000", none⟩,
          "FAILED", none⟩).1.build_details.sourceVersion = some "pr/7" ∧
    ("pr/7" = "pr/7" →
      BuildDetails.is_pr_build
        (process_batch
          (.returns (some [⟨some "pr/7", none⟩]))
          ⟨⟨some "arn:item", some "a1b2c3d4", none,
              some "arn:aws:codebuild:eu-west-1:1:build-batch/proj:0000", none⟩,
            "FAILED", none⟩).1.build_details = true) :=
  c3_batch_source_version
    (.returns (some [⟨some "pr/7", none⟩]))
    ⟨⟨some "arn:item", some "a1b2c3d4", none,
        some "arn:aws:codebuild:eu-west-1:1:build-batch/proj:0000", none⟩,
      "FAILED", none⟩
    "arn:aws:codebuild:eu-west-1:1:build-batch/proj:0000" "pr/7"
    ⟨some "pr/7", none⟩
    rfl (by decide) rfl rfl

/-- C9: batch resolution is not atomic on this failure path: when the
group matching this build's arn has an `identifier` but its
`currentBuildSummary` lacks `buildStatus`, the `KeyError` from
`group['currentBuildSummary']['buildStatus']` propagates while
`group_identifier` has already been set and `status` still holds its
prior build-level value. -/
theorem c9_nonatomic_failure (call : CallResult (Option (List BuildBatch)))
    (s : BatchState) (arn sv ident : String) (batch : BuildBatch)
    (gs : List BuildGroup) (g : BuildGroup) (cbs : CurrentBuildSummary)
    (harn : s.build_details.buildBatchArn = some arn)
    (hsplit : 2 ≤ (pySplit '/' arn.data).length)
    (hcall : extractFirstBatch call = .ok (some batch))
    (hsv : batch.sourceVersion = some sv)
    (hgs : batch.buildGroups = some gs)
    (hfind : find_group s.build_details.arn gs = .ok (some g))
    (hident : g.identifier = some ident)
    (hcbs : g.currentBuildSummary = some cbs)
    (hbs : cbs.buildStatus = none) :
    (process_batch call s).2 = some PyErr.keyError ∧
    (process_batch call s).1.group_identifier = some ident ∧
    (process_batch call s).1.status = s.status := by
  have h2 : ¬ (pySplit '/' arn.data).length < 2 := by omega
  have hfind1 :
      find_group ({ s.build_details with sourceVersion := some sv } : BuildDetails).arn gs =
        .ok (some g) := hfind
  simp [process_batch, harn, if_neg h2, hcall, hsv, hgs, hfind1, hident,
    hcbs, hbs]

/-- C9 witness: a one-group batch whose group has an identifier but whose
`currentBuildSummary` lacks `buildStatus`. -/
theorem c9_nonatomic_failure_witness :
    (process_batch
        (.returns (some [⟨some "pr/9", some [⟨some "item-1", some ⟨some "arn:item", none⟩⟩]⟩]))
        ⟨⟨some "arn:item", some "a1b2c3d4", none,
            some "arn:aws:codebuild:eu-west-1:1:build-batch/proj:0000", none⟩,
          "IN_PROGRESS", none⟩).2 = some PyErr.keyError ∧
    (process_batch
        (.returns (some [⟨some "pr/9", some [⟨some "item-1", some ⟨some "arn:item", none⟩⟩]⟩]))
        ⟨⟨some "arn:item", some "a1b2c3d4", none,
            some "arn:aws:codebuild:eu-west-1:1:build-batch/proj:0000", none⟩,
          "IN_PROGRESS", none⟩).1.group_identifier = some "item-1" ∧
    (process_batch
        (.returns (some [⟨some "pr/9", some [⟨some "item-1", some ⟨some "arn:item", none⟩⟩]⟩]))
        ⟨⟨some "arn:item", some "a1b2c3d4", none,
            some "arn:aws:codebuild:eu-west-1:1:build-batch/proj:0000", none⟩,
          "IN_PROGRESS", none⟩).1.status = "IN_PROGRESS" :=
  c9_nonatomic_failure
    (.returns (some [⟨some "pr/9", some [⟨some "item-1", some ⟨some "arn:item", none⟩⟩]⟩]))
    ⟨⟨some "arn:item", some "a1b2c3d4", none,
        some "arn:aws:codebuild:eu-west-1:1:build-batch/proj:0000", none⟩,
      "IN_PROGRESS", none⟩
    "arn:aws:codebuild:eu-west-1:1:build-batch/proj:0000" "pr/9" "item-1"
    ⟨some "pr/9", some [⟨some "item-1", some ⟨some "arn:item", none⟩⟩]⟩
    [⟨some "item-1", some ⟨some "arn:item", none⟩⟩]
    ⟨some "item-1", some ⟨some "arn:item", none⟩⟩
    ⟨some "arn:item", none⟩
    rfl (by decide) rfl rfl rfl (by decide) rfl rfl rfl

/-- C1 counterexample: a build that is part of a batch, for which the
batch service returns no `buildBatches` match (an empty list): the claim
says this is a silent no-op, but the `IndexError` from
`['buildBatches'][0]` is not caught by `except KeyError` and propagates
out of batch resolution. -/
theorem c1_counterexample :
    (process_batch (.returns (some []))
        ⟨⟨some "arn:item", some "a1b2c3d4", none,
            some "arn:aws:codebuild:eu-west-1:1:build-batch/proj:0000", none⟩,
          "FAILED", none⟩).2 = some PyErr.indexError ∧
    ¬ (process_batch (.returns (some []))
        ⟨⟨some "arn:item", some "a1b2c3d4", none,
            some "arn:aws:codebuild:eu-west-1:1:build-batch/proj:0000", none⟩,
          "FAILED", none⟩).2 = none := by
  exact ⟨rfl, by decide⟩

/-- C1 (amended): for every build that is part of a batch, when the batch
call raises a `KeyError` or its response lacks the `buildBatches` key, or
the batch lacks `sourceVersion` or `buildGroups`, or no group matches this
build's arn, or the matching group lacks an `identifier`, batch resolution
is a no-op that does not abort processing: no error propagates,
`group_identifier` is unchanged (hence remains none), and `status` keeps
the original build-level value.  (As the counterexample shows, an empty
`buildBatches` list or a non-`KeyError` service failure propagates
instead.) -/
theorem c1_benign_no_op (call : CallResult (Option (List BuildBatch)))
    (s : BatchState) (arn : String)
    (harn : s.build_details.buildBatchArn = some arn)
    (hsplit : 2 ≤ (pySplit '/' arn.data).length)
    (hbenign :
      extractFirstBatch call = .ok none ∨
      ∃ batch, extractFirstBatch call = .ok (some batch) ∧
        (batch.sourceVersion = none ∨
         batch.buildGroups = none ∨
         ∃ gs, batch.buildGroups = some gs ∧
           (find_group s.build_details.arn gs = .ok none ∨
            ∃ g, find_group s.build_details.arn gs = .ok (some g) ∧
              g.identifier = none))) :
    (process_batch call s).2 = none ∧
    (process_batch call s).1.group_identifier = s.group_identifier ∧
    (process_batch call s).1.status = s.status := by
  have h2 : ¬ (pySplit '/' arn.data).length < 2 := by omega
  rcases hbenign with hnone | ⟨batch, hcall, hrest⟩
  · simp [process_batch, harn, if_neg h2, hnone]
  · rcases hrest with hsv | hgs | ⟨gs, hgs, hfg⟩
    · simp [process_batch, harn, if_neg h2, hcall, hsv]
    · rcases hsv : batch.sourceVersion with _ | sv
      · simp [process_batch, harn, if_neg h2, hcall, hsv]
      · simp [process_batch, harn, if_neg h2, hcall, hsv, hgs]
    · rcases hsv : batch.sourceVersion with _ | sv
      · simp [process_batch, harn, if_neg h2, hcall, hsv]
      · have harn1 :
            ({ s.build_details with sourceVersion := some sv } : BuildDetails).arn =
              s.build_details.arn := rfl
        rcases hfg with hfn | ⟨g, hfg, hid⟩
        · simp [process_batch, harn, if_neg h2, hcall, hsv, hgs, harn1, hfn]
        · simp [process_batch, harn, if_neg h2, hcall, hsv, hgs, harn1, hfg, hid]

/-- C1 witness: the batch response lacks the `buildBatches` key, so the
`KeyError` is caught and resolution is a silent no-op. -/
theorem c1_benign_no_op_witness :
    (process_batch (.returns none)
        ⟨⟨some "arn:item", some "a1b2c3d4", none,
            some "arn:aws:codebuild:eu-west-1:1:build-batch/proj:0000", none⟩,
          "FAILED", none⟩).2 = none ∧
    (process_batch (.returns none)
        ⟨⟨some "arn:item", some "a1b2c3d4", none,
            some "arn:aws:codebuild:eu-west-1:1:build-batch/proj:0000", none⟩,
          "FAILED", none⟩).1.group_identifier = none ∧
    (process_batch (.returns none)
        ⟨⟨some "arn:item", some "a1b2c3d4", none,
            some "arn:aws:codebuild:eu-west-1:1:build-batch/proj:0000", none⟩,
          "FAILED", none⟩).1.status = "FAILED" :=
  c1_benign_no_op (.returns none)
    ⟨⟨some "arn:item", some "a1b2c3d4", none,
        some "arn:aws:codebuild:eu-west-1:1:build-batch/proj:0000", none⟩,
      "FAILED", none⟩
    "arn:aws:codebuild:eu-west-1:1:build-batch/proj:0000"
    rfl (by decide) (Or.inl rfl)

/-- C2: for every batch build whose batch details contain `buildGroups`,
the first group (in service order) whose `currentBuildSummary.arn` equals
this build's own arn — provided that group has an `identifier` and a
`buildStatus` — determines the resolved state: `status` is overwritten
with that group's `currentBuildSummary.buildStatus` (so an item whose
group says `SUCCEEDED` resolves to `SUCCEEDED` even when the build-level
event status was `FAILED`), and `group_identifier` is set to the group's
`identifier`. -/
theorem c2_group_status_override (call : CallResult (Option (List BuildBatch)))
    (s : BatchState) (arn selfArn sv ident bs : String) (batch : BuildBatch)
    (pre post : List BuildGroup) (g : BuildGroup) (cbs : CurrentBuildSummary)
    (harn : s.build_details.buildBatchArn = some arn)
    (hsplit : 2 ≤ (pySplit '/' arn.data).length)
    (hcall : extractFirstBatch call = .ok (some batch))
    (hsv : batch.sourceVersion = some sv)
    (hgs : batch.buildGroups = some (pre ++ g :: post))
    (hself : s.build_details.arn = some selfArn)
    (hpre : ∀ g' ∈ pre, iterator_callback selfArn g' = false)
    (hmatch : iterator_callback selfArn g = true)
    (hident : g.identifier = some ident)
    (hcbs : g.currentBuildSummary = some cbs)
    (hbs : cbs.buildStatus = some bs) :
    (process_batch call s).1.status = bs ∧
    (process_batch call s).1.group_identifier = some ident ∧
    (process_batch call s).2 = none := by
  have h2 : ¬ (pySplit '/' arn.data).length < 2 := by omega
  have hfg :
      find_group ({ s.build_details with sourceVersion := some sv } : BuildDetails).arn
        (pre ++ g :: post) = .ok (some g) := by
    have harn1 :
        ({ s.build_details with sourceVersion := some sv } : BuildDetails).arn =
          some selfArn := hself
    rw [harn1]
    exact find_group_first selfArn pre post g hpre hmatch
  simp [process_batch, harn, if_neg h2, hcall, hsv, hgs, hfg, hident, hcbs, hbs]

/-- C2 witness: a two-group batch in which the first group belongs to a
sibling item; the second group matches this build's arn, has identifier
`item-2` and status `SUCCEEDED`, while the build-level event status was
`FAILED`. -/
theorem c2_group_status_override_witness :
    (process_batch
        (.returns (some [⟨some "pr/7",
          some [⟨some "item-1", some ⟨some "arn:other", some "FAILED"⟩⟩,
                ⟨some "item-2", some ⟨some "arn:item", some "SUCCEEDED"⟩⟩]⟩]))
        ⟨⟨some "arn:item", some "a1b2c3d4", none,
            some "arn:aws:codebuild:eu-west-1:1:build-batch/proj:0000", none⟩,
          "FAILED", none⟩).1.status = "SUCCEEDED" ∧
    (process_batch
        (.returns (some [⟨some "pr/7",
          some [⟨some "item-1", some ⟨some "arn:other", some "FAILED"⟩⟩,
                ⟨some "item-2", some ⟨some "arn:item", some "SUCCEEDED"⟩⟩]⟩]))
        ⟨⟨some "arn:item", some "a1b2c3d4", none,
            some "arn:aws:codebuild:eu-west-1:1:build-batch/proj:0000", none⟩,
          "FAILED", none⟩).1.group_identifier = some "item-2" ∧
    (process_batch
        (.returns (some [⟨some "pr/7",
          some [⟨some "item-1", some ⟨some "arn:other", some "FAILED"⟩⟩,
                ⟨some "item-2", some ⟨some "arn:item", some "SUCCEEDED"⟩⟩]⟩]))
        ⟨⟨some "arn:item", some "a1b2c3d4", none,
            some "arn:aws:codebuild:eu-west-1:1:build-batch/proj:0000", none⟩,
          "FAILED", none⟩).2 = none :=
  c2_group_status_override
    (.returns (some [⟨some "pr/7",
      some [⟨some "item-1", some ⟨some "arn:other", some "FAILED"⟩⟩,
            ⟨some "item-2", some ⟨some "arn:item", some "SUCCEEDED"⟩⟩]⟩]))
    ⟨⟨some "arn:item", some "a1b2c3d4", none,
        some "arn:aws:codebuild:eu-west-1:1:build-batch/proj:0000", none⟩,
      "FAILED", none⟩
    "arn:aws:codebuild:eu-west-1:1:build-batch/proj:0000" "arn:item" "pr/7"
    "item-2" "SUCCEEDED"
    ⟨some "pr/7",
      some [⟨some "item-1", some ⟨some "arn:other", some "FAILED"⟩⟩,
            ⟨some "item-2", some ⟨some "arn:item", some "SUCCEEDED"⟩⟩]⟩
    [⟨some "item-1", some ⟨some "arn:other", some "FAILED"⟩⟩] []
    ⟨some "item-2", some ⟨some "arn:item", some "SUCCEEDED"⟩⟩
    ⟨some "arn:item", some "SUCCEEDED"⟩
    rfl (by decide) rfl rfl rfl rfl (by decide) (by decide) rfl rfl rfl

/-- Helper: when `_build_details` is already cached, `_get_build_details`
returns it with no service call. -/
theorem get_build_details_cached (svc : Services) (b : Build)
    (bd : BuildDetails) (hb : b.build_details = some bd) :
    b.get_build_details svc = ⟨b, 0, .ok bd⟩ := by
  simp [Build.get_build_details, hb]

/-- C6: build details are fetched at most once per instance: on a fresh
build the first `_get_build_details` call makes exactly one
`batch_get_builds` call, stores the first returned record after batch
resolution, and every subsequent call makes zero service calls and
returns the cached value (whatever the services would now answer), so two
invocations make exactly one build-description call in total. -/
theorem c6_details_memoized (e : BuildEvent) (svc svc2 : Services)
    (bd0 : BuildDetails) (rest : List BuildDetails)
    (hresp : svc.builds_response = .returns (some (bd0 :: rest))) :
    ((Build.from_event e).get_build_details svc).calls = 1 ∧
    ((Build.from_event e).get_build_details svc).build.build_details =
      some (process_batch svc.batches_response
        ⟨bd0, e.build_status, none⟩).1.build_details ∧
    (∃ bd1,
      ((Build.from_event e).get_build_details svc).build.build_details = some bd1 ∧
      (((Build.from_event e).get_build_details svc).build.get_build_details
        svc2).calls = 0 ∧
      (((Build.from_event e).get_build_details svc).build.get_build_details
        svc2).result = .ok bd1) ∧
    ((Build.from_event e).get_build_details svc).calls +
      (((Build.from_event e).get_build_details svc).build.get_build_details
        svc2).calls = 1 := by
  have hfst : ((Build.from_event e).get_build_details svc).calls = 1 ∧
      ((Build.from_event e).get_build_details svc).build.build_details =
        some (process_batch svc.batches_response
          ⟨bd0, e.build_status, none⟩).1.build_details := by
    rcases hp : process_batch svc.batches_response ⟨bd0, e.build_status, none⟩
      with ⟨s1, err⟩
    have harg : process_batch svc.batches_response
        ⟨bd0, (Build.from_event e).status, (Build.from_event e).group_identifier⟩ =
        (s1, err) := hp
    cases err <;>
      simp [Build.get_build_details, Build.from_event, hresp,
        extractFirstBuild, harg, hp]
  obtain ⟨hcalls, hdet⟩ := hfst
  refine ⟨hcalls, hdet, ⟨_, hdet, ?_, ?_⟩, ?_⟩
  · rw [get_build_details_cached svc2 _ _ hdet]
  · rw [get_build_details_cached svc2 _ _ hdet]
  · rw [hcalls, get_build_details_cached svc2 _ _ hdet]
    rfl

/-- C6 witness: a fresh non-batch build fetched twice. -/
theorem c6_details_memoized_witness :
    ((Build.from_event ⟨"id1", "proj", "SUCCEEDED"⟩).get_build_details
        ⟨.returns (some [⟨some "arn:b", some "abc", some "deadbeef", none, none⟩]),
          .returns none⟩).calls = 1 ∧
    ((Build.from_event ⟨"id1", "proj", "SUCCEEDED"⟩).get_build_details
        ⟨.returns (some [⟨some "arn:b", some "abc", some "deadbeef", none, none⟩]),
          .returns none⟩).build.build_details =
      some (process_batch (.returns none)
        ⟨⟨some "arn:b", some "abc", some "deadbeef", none, none⟩,
          "SUCCEEDED", none⟩).1.build_details ∧
    (∃ bd1,
      ((Build.from_event ⟨"id1", "proj", "SUCCEEDED"⟩).get_build_details
          ⟨.returns (some [⟨some "arn:b", some "abc", some "deadbeef", none, none⟩]),
            .returns none⟩).build.build_details = some bd1 ∧
      (((Build.from_event ⟨"id1", "proj", "SUCCEEDED"⟩).get_build_details
          ⟨.returns (some [⟨some "arn:b", some "abc", some "deadbeef", none, none⟩]),
            .returns none⟩).build.get_build_details
        ⟨.raises .clientError, .raises .clientError⟩).calls = 0 ∧
      (((Build.from_event ⟨"id1", "proj", "SUCCEEDED"⟩).get_build_details
          ⟨.returns (some [⟨some "arn:b", some "abc", some "deadbeef", none, none⟩]),
            .returns none⟩).build.get_build_details
        ⟨.raises .clientError, .raises .clientError⟩).result = .ok bd1) ∧
    ((Build.from_event ⟨"id1", "proj", "SUCCEEDED"⟩).get_build_details
        ⟨.returns (some [⟨some "arn:b", some "abc", some "deadbeef", none, none⟩]),
          .returns none⟩).calls +
      (((Build.from_event ⟨"id1", "proj", "SUCCEEDED"⟩).get_build_details
          ⟨.returns (some [⟨some "arn:b", some "abc", some "deadbeef", none, none⟩]),
            .returns none⟩).build.get_build_details
        ⟨.raises .clientError, .raises .clientError⟩).calls = 1 :=
  c6_details_memoized ⟨"id1", "proj", "SUCCEEDED"⟩
    ⟨.returns (some [⟨some "arn:b", some "abc", some "deadbeef", none, none⟩]),
      .returns none⟩
    ⟨.raises .clientError, .raises .clientError⟩
    ⟨some "arn:b", some "abc", some "deadbeef", none, none⟩ []
    rfl

/-- C7: `get_pr_id` on the (possibly batch-overridden) `sourceVersion`
returns `some n` exactly when the string starts with `pr/` followed by at
least one digit, `n` being the value of that maximal digit run (the
captured group of `^pr\/(\d+)`), and `none` otherwise; `is_pr_build` is
true iff `get_pr_id` returns a value; `pr/42` yields `42` and `a1b2c3`
yields `none`. -/
theorem c7_pr_id (bd bd42 bdhash : BuildDetails)
    (h42 : bd42.sourceVersion = some "pr/42")
    (hhash : bdhash.sourceVersion = some "a1b2c3") :
    (∀ n : Nat, bd.pr_id = some n ↔
      ∃ ds rest : List Char,
        (bd.sourceVersion.getD "").data = 'p' :: 'r' :: '/' :: (ds ++ rest) ∧
        ds ≠ [] ∧ (∀ c ∈ ds, c.isDigit = true) ∧
        (∀ c : Char, rest.head? = some c → c.isDigit = false) ∧
        n = digitsToNat ds) ∧
    bd.is_pr_build = bd.pr_id.isSome ∧
    bd42.pr_id = some 42 ∧
    bdhash.pr_id = none := by
  refine ⟨?_, rfl, ?_, ?_⟩
  · intro n
    exact matchPrId_eq_some_iff (bd.sourceVersion.getD "").data n
  · simp only [BuildDetails.pr_id, h42]
    rfl
  · simp only [BuildDetails.pr_id, hhash]
    rfl

/-- C7 witness: concrete details with source versions `pr/42` and
`a1b2c3`. -/
theorem c7_pr_id_witness :
    (∀ n : Nat,
      (⟨some "arn:b", some "pr/42", none, none, none⟩ : BuildDetails).pr_id =
          some n ↔
        ∃ ds rest : List Char,
          (((⟨some "arn:b", some "pr/42", none, none, none⟩ :
              BuildDetails).sourceVersion.getD "").data =
            'p' :: 'r' :: '/' :: (ds ++ rest)) ∧
          ds ≠ [] ∧ (∀ c ∈ ds, c.isDigit = true) ∧
          (∀ c : Char, rest.head? = some c → c.isDigit = false) ∧
          n = digitsToNat ds) ∧
    (⟨some "arn:b", some "pr/42", none, none, none⟩ : BuildDetails).is_pr_build =
      (⟨some "arn:b", some "pr/42", none, none, none⟩ : BuildDetails).pr_id.isSome ∧
    (⟨some "arn:b", some "pr/42", none, none, none⟩ : BuildDetails).pr_id =
      some 42 ∧
    (⟨some "arn:b", some "a1b2c3", none, none, none⟩ : BuildDetails).pr_id =
      none :=
  c7_pr_id
    ⟨some "arn:b", some "pr/42", none, none, none⟩
    ⟨some "arn:b", some "pr/42", none, none, none⟩
    ⟨some "arn:b", some "a1b2c3", none, none, none⟩
    rfl rfl

end CodebuildLogs
